import Mathlib

/-!
Verification of the statistical core of the `experimentation-studies` A/B
experimentation platform (`experimentation_tool/platform.py` and
`experimentation_tool/experiment.py`).

The Python code is shallowly embedded as executable Lean definitions:

* Python `float` values are modelled exactly by `ℚ`; where the Python code
  divides by zero (numpy produces `inf`/`nan` there, never an exception),
  the model uses Lean's `x / 0 = 0` convention — every theorem touching such
  a point only relies on the fact that a *value* is produced, never on which
  one, except where noted in the doc comment of the theorem.
* External library calls with irrational mathematical content
  (`scipy.stats.norm.ppf`, `np.sqrt`, `scipy.stats.ttest_ind`) are taken as
  function parameters; theorems that need facts about them state those facts
  as hypotheses (sign and accuracy bounds of the inverse normal CDF and of
  the square root).  `scipy.stats.chisquare` on one category is modelled by
  its defining formula `(observed - expected)^2 / expected`.
* `hashlib.md5` is implemented from scratch (RFC 1321) over `ℕ` with
  explicit `% 2^32` reductions, and validated on the standard test vectors.
* Python attribute access on the `Experiment` dataclass and on `Platform`
  instances is modelled explicitly, because two methods of the source read
  attributes that do not exist (`experiment.id`, `self.status`) and
  therefore raise `AttributeError`.
-/

deriving instance DecidableEq for Except

/-- Errors a call into the platform can surface: the spec's taxonomy
(`InvalidParameter`, `InsufficientData`, `ExternalSourceError`) together with
the Python runtime errors the source code can actually raise
(`AttributeError`, `TypeError`). -/
inductive Err where
  | invalidParameter : Err
  | insufficientData : Err
  | attributeError (obj attr : String) : Err
  | typeError (msg : String) : Err
  | externalSource (msg : String) : Err
  deriving DecidableEq, Repr

/-- Python values that flow through the data-plumbing parts of the platform:
ints, strings, floats (modelled exactly as rationals) and lists of values. -/
inductive PyVal where
  | int (i : ℤ) : PyVal
  | str (s : String) : PyVal
  | rat (q : ℚ) : PyVal
  | list (xs : List ℚ) : PyVal
  deriving DecidableEq, Repr

/-- Python binary `-` on the values above: defined on numbers, a `TypeError`
on anything else (in particular on two Python lists, as in
`metric_control - metric_test` when the metric source returns lists). -/
def PyVal.sub : PyVal → PyVal → Except Err PyVal
  | .int a, .int b => .ok (.int (a - b))
  | .int a, .rat b => .ok (.rat ((a : ℚ) - b))
  | .rat a, .int b => .ok (.rat (a - (b : ℚ)))
  | .rat a, .rat b => .ok (.rat (a - b))
  | _, _ => .error (.typeError "unsupported operand type for subtraction")

/-- The `Experiment` dataclass of `experimentation_tool/experiment.py`,
field for field (including the source's spelling
`baseline_converstion_rate`).  `status` is one of the literals
`"DONE"`, `"NEW"`, `"RUNNING"`. -/
structure Experiment where
  experiment_id : ℤ
  name : String
  description : String
  metric : String
  control_metric : String
  traffic_percentage : ℚ
  control_group_size : ℚ
  baseline_converstion_rate : ℚ
  minimum_detectable_effect : ℚ
  status : String
  min_significance : ℚ := 95 / 100
  deriving DecidableEq, Repr

/-- Python attribute access on an `Experiment`: exactly the fields declared
by the dataclass succeed; any other name — in particular `id`, which
`Platform.calculate_significance` and `Platform.calculate_delta` read —
raises `AttributeError`. -/
def Experiment.getattr (e : Experiment) : String → Except Err PyVal
  | "experiment_id" => .ok (.int e.experiment_id)
  | "name" => .ok (.str e.name)
  | "description" => .ok (.str e.description)
  | "metric" => .ok (.str e.metric)
  | "control_metric" => .ok (.str e.control_metric)
  | "traffic_percentage" => .ok (.rat e.traffic_percentage)
  | "control_group_size" => .ok (.rat e.control_group_size)
  | "baseline_converstion_rate" => .ok (.rat e.baseline_converstion_rate)
  | "minimum_detectable_effect" => .ok (.rat e.minimum_detectable_effect)
  | "status" => .ok (.str e.status)
  | "min_significance" => .ok (.rat e.min_significance)
  | a => .error (.attributeError "Experiment" a)

/-- A concrete implementation of the abstract `Database` collaborator: the
two metric-retrieval methods, with the two-parameter signature declared by
the abstract base class (`metric`, `experiment_id`).  Implementations may
return any value or fail (e.g. with `ExternalSourceError`). -/
structure Database where
  get_metric_control : PyVal → PyVal → Except Err PyVal
  get_metric_test : PyVal → PyVal → Except Err PyVal

/-- Calling `get_metric_test` with a single positional argument, as
`Platform.calculate_significance` does (`self.database.get_metric_test(experiment)`):
the declared signature takes `metric` and `experiment_id`, so the call
raises `TypeError` before the method body runs. -/
def Database.get_metric_test_unary (_ : Database) (_ : Experiment) :
    Except Err PyVal :=
  .error (.typeError "get_metric_test missing 1 required positional argument")

/-- The `Platform` object state: `__init__` assigns `self.experiments = []`
and `self.database = database`, and nothing else is ever assigned to
`self`. -/
structure Platform where
  experiments : List Experiment
  database : Database

/-- Python attribute access `self.status` on a `Platform` instance:
`__init__` sets only `experiments` and `database` and no method ever
assigns `status`, so the lookup raises `AttributeError`. -/
def Platform.attr_status (_ : Platform) : Except Err PyVal :=
  .error (.attributeError "Platform" "status")

/-- `Platform.calculate_sample_size` (a classmethod), translated line by
line.  The external library functions are parameters: `ppf` models
`scipy.stats.norm.ppf` (inverse normal CDF) and `sqrt` models `np.sqrt`.
The source performs no parameter validation and contains no `raise`, so
every path produces an `Except.ok`; at `delta = 0` the float code divides
by zero (numpy yields `inf`/`nan`, not an exception), modelled by Lean's
`x / 0 = 0`. -/
def Platform.calculate_sample_size (ppf sqrt : ℚ → ℚ)
    (alpha stats_power base_rate pct_min_detectable_efect : ℚ) :
    Except Err ℚ :=
  let delta := base_rate * pct_min_detectable_efect
  let t_alpha2 := ppf (1 - alpha / 2)
  let t_beta := ppf stats_power
  let sd1 := sqrt (2 * base_rate * (1 - base_rate))
  let sd2 := sqrt (base_rate * (1 - base_rate)
      + (base_rate + delta) * (1 - base_rate - delta))
  .ok ((t_alpha2 * sd1 + t_beta * sd2) * (t_alpha2 * sd1 + t_beta * sd2)
      / (delta * delta))

/-- Closed-form result stated by the spec: `((z_alpha2*sd1 + z_beta*sd2)^2) / delta^2`
with `delta = base_rate * min_detectable_effect_pct`,
`z_alpha2 = InverseNormalCDF(1 - alpha/2)`, `z_beta = InverseNormalCDF(power)`,
`sd1 = sqrt(2*base_rate*(1-base_rate))` and
`sd2 = sqrt(base_rate*(1-base_rate) + (base_rate+delta)*(1-base_rate-delta))`. -/
def sampleSizeSpec (ppf sqrt : ℚ → ℚ)
    (alpha power base_rate min_detectable_effect_pct : ℚ) : ℚ :=
  let delta := base_rate * min_detectable_effect_pct
  let z_alpha2 := ppf (1 - alpha / 2)
  let z_beta := ppf power
  let sd1 := sqrt (2 * base_rate * (1 - base_rate))
  let sd2 := sqrt (base_rate * (1 - base_rate)
      + (base_rate + delta) * (1 - base_rate - delta))
  (z_alpha2 * sd1 + z_beta * sd2) ^ 2 / delta ^ 2

/-- One-category chi-square statistic as computed by
`scipy.stats.chisquare(f_obs, f_exp)`: the sum of
`(observed - expected)^2 / expected` over the categories.  In the model a
zero `expected` makes the summand `0` (Lean's division convention); in the
float code it makes it `inf` or `nan` — in both cases the strict test
`0 < s < 1` below comes out `false`, so the two agree on every observable
of this development. -/
def chisquareStatistic (f_obs f_exp : List ℚ) : ℚ :=
  (List.zipWith (fun o e => (o - e) ^ 2 / e) f_obs f_exp).sum

/-- `Platform.are_buckets_balanced` (a classmethod): the chained Python
comparison `0 < chisquare([observed], [expected]).statistic < 1`.  The
source performs no validation and contains no `raise`, so every path
produces an `Except.ok`. -/
def Platform.are_buckets_balanced (observed expected : ℚ) : Except Err Bool :=
  .ok (decide (0 < chisquareStatistic [observed] [expected]
      ∧ chisquareStatistic [observed] [expected] < 1))

/-- `Platform.split_traffic_naive` (a classmethod): modulo-based assignment,
`"t"` when `id % prime_n > prime_n // 2`, else `"c"`.  Lean's `Int.emod`
and `Int.ediv` agree with Python's `%` and `//` for the positive moduli the
function is used with. -/
def Platform.split_traffic_naive (id : ℤ) (prime_n : ℤ := 7) : String :=
  let ab_split := id % prime_n
  if ab_split > prime_n / 2 then "t" else "c"

/-- Assignment rule claimed by the spec for `split_traffic_naive`:
`test` when `user_id mod prime_n > prime_n div 2`, else `control`. -/
def splitNaiveSpec (user_id prime_n : ℤ) : String :=
  if user_id % prime_n > prime_n / 2 then "t" else "c"

/-- Number of ids among `0, 1, ..., n-1` that `split_traffic_naive` (with
its default `prime_n = 7`) sends to the test group. -/
def naiveTestCount (n : ℕ) : ℕ :=
  ((List.range n).filter
    (fun i : ℕ => Platform.split_traffic_naive (i : ℤ) == "t")).length

/-- Number of ids among `0, 1, ..., n-1` that `split_traffic_naive` (with
its default `prime_n = 7`) sends to the control group. -/
def naiveControlCount (n : ℕ) : ℕ :=
  ((List.range n).filter
    (fun i : ℕ => Platform.split_traffic_naive (i : ℤ) == "c")).length

/-- `Platform.calculate_significance`, translated statement by statement in
Python evaluation order.  `pvalue` models `scipy.stats.ttest_ind(a, b).pvalue`.
The first statement evaluates the keyword arguments of
`self.database.get_metric_control(metric=experiment.metric, experiment_id=experiment.id)`
left to right, so `experiment.metric` is read, then `experiment.id` — which
raises `AttributeError` (the dataclass field is `experiment_id`, not `id`),
making every later statement (the one-argument `get_metric_test` call, the
`self.status` read, the t-test) unreachable. -/
def Platform.calculate_significance (pvalue : PyVal → PyVal → ℚ)
    (self : Platform) (experiment : Experiment) : Except Err ℚ := do
  let m ← experiment.getattr "metric"
  let eid ← experiment.getattr "id"
  let metric_control ← self.database.get_metric_control m eid
  let metric_test ← self.database.get_metric_test_unary experiment
  let status ← self.attr_status
  if status = .str "DONE" then
    return pvalue metric_control metric_test
  else
    return -1

/-- Instrumented copy of `Platform.calculate_significance` that additionally
returns the list of database methods whose invocation is actually reached,
in order.  It performs exactly the same steps as the plain definition; the
second component only records, at each database call site, that execution
reached that call. -/
def Platform.calculate_significanceTraced (pvalue : PyVal → PyVal → ℚ)
    (self : Platform) (experiment : Experiment) :
    Except Err ℚ × List String :=
  match experiment.getattr "metric" with
  | .error e => (.error e, [])
  | .ok m =>
    match experiment.getattr "id" with
    | .error e => (.error e, [])
    | .ok eid =>
      match self.database.get_metric_control m eid with
      | .error e => (.error e, ["get_metric_control"])
      | .ok metric_control =>
        match self.database.get_metric_test_unary experiment with
        | .error e => (.error e, ["get_metric_control", "get_metric_test"])
        | .ok metric_test =>
          match self.attr_status with
          | .error e => (.error e, ["get_metric_control", "get_metric_test"])
          | .ok status =>
            if status = .str "DONE" then
              (.ok (pvalue metric_control metric_test),
                ["get_metric_control", "get_metric_test"])
            else
              (.ok (-1), ["get_metric_control", "get_metric_test"])

/-- `Platform.calculate_delta`, translated statement by statement.  Both
database calls pass `experiment_id=experiment.id`, and `experiment.id`
raises `AttributeError` (the dataclass field is `experiment_id`), so
neither retrieval nor the final raw subtraction
`metric_control - metric_test` is ever reached. -/
def Platform.calculate_delta (self : Platform) (experiment : Experiment) :
    Except Err PyVal := do
  let m ← experiment.getattr "metric"
  let eid ← experiment.getattr "id"
  let metric_control ← self.database.get_metric_control m eid
  let m2 ← experiment.getattr "metric"
  let eid2 ← experiment.getattr "id"
  let metric_test ← self.database.get_metric_test m2 eid2
  metric_control.sub metric_test

/-! ### MD5 (RFC 1321), over `ℕ` with explicit reduction modulo `2 ^ 32`

`Platform.split_traffic` hashes `str(id) + "-" + str(experiment_id)` with
`hashlib.md5` and keeps the first six hex digits.  The hash is implemented
here from scratch and validated on the standard test vectors
(`md5_empty_vector`, `md5_abc_vector` below). -/

/-- Reduction of a natural number to a 32-bit word. -/
def w32 (n : ℕ) : ℕ := n % 4294967296

/-- Left rotation of a 32-bit word by `s` places (`0 ≤ s < 32`). -/
def rotl32 (x s : ℕ) : ℕ := w32 (x <<< s) ||| (x >>> (32 - s))

/-- Bitwise complement of a 32-bit word. -/
def not32 (x : ℕ) : ℕ := x ^^^ 4294967295

/-- Round function F of MD5: `(B and C) or ((not B) and D)`. -/
def md5F (b c d : ℕ) : ℕ := (b &&& c) ||| (not32 b &&& d)

/-- Round function G of MD5: `(B and D) or (C and (not D))`. -/
def md5G (b c d : ℕ) : ℕ := (b &&& d) ||| (c &&& not32 d)

/-- Round function H of MD5: `B xor C xor D`. -/
def md5H (b c d : ℕ) : ℕ := b ^^^ c ^^^ d

/-- Round function I of MD5: `C xor (B or (not D))`. -/
def md5I (b c d : ℕ) : ℕ := c ^^^ (b ||| not32 d)

/-- The 64 sine-derived MD5 constants `K[i] = floor(abs(sin(i+1)) * 2^32)`. -/
def md5K : List ℕ :=
  [3614090360, 3905402710, 606105819, 3250441966,
   4118548399, 1200080426, 2821735955, 4249261313,
   1770035416, 2336552879, 4294925233, 2304563134,
   1804603682, 4254626195, 2792965006, 1236535329,
   4129170786, 3225465664, 643717713, 3921069994,
   3593408605, 38016083, 3634488961, 3889429448,
   568446438, 3275163606, 4107603335, 1163531501,
   2850285829, 4243563512, 1735328473, 2368359562,
   4294588738, 2272392833, 1839030562, 4259657740,
   2763975236, 1272893353, 4139469664, 3200236656,
   681279174, 3936430074, 3572445317, 76029189,
   3654602809, 3873151461, 530742520, 3299628645,
   4096336452, 1126891415, 2878612391, 4237533241,
   1700485571, 2399980690, 4293915773, 2240044497,
   1873313359, 4264355552, 2734768916, 1309151649,
   4149444226, 3174756917, 718787259, 3951481745]

/-- The 64 per-round left-rotation amounts of MD5. -/
def md5S : List ℕ :=
  [7, 12, 17, 22, 7, 12, 17, 22, 7, 12, 17, 22, 7, 12, 17, 22,
   5, 9, 14, 20, 5, 9, 14, 20, 5, 9, 14, 20, 5, 9, 14, 20,
   4, 11, 16, 23, 4, 11, 16, 23, 4, 11, 16, 23, 4, 11, 16, 23,
   6, 10, 15, 21, 6, 10, 15, 21, 6, 10, 15, 21, 6, 10, 15, 21]

/-- Little-endian byte decomposition: the `k` low-order bytes of `x`. -/
def leBytes (k x : ℕ) : List ℕ :=
  (List.range k).map (fun i => x / 2 ^ (8 * i) % 256)

/-- Word `j` (little-endian) of a 64-byte block. -/
def leWord (block : List ℕ) (j : ℕ) : ℕ :=
  block.getD (4 * j) 0 + 256 * block.getD (4 * j + 1) 0
    + 65536 * block.getD (4 * j + 2) 0 + 16777216 * block.getD (4 * j + 3) 0

/-- One of the 64 MD5 operations, acting on the state `(A, B, C, D)`. -/
def md5Round (M : ℕ → ℕ) (st : ℕ × ℕ × ℕ × ℕ) (i : ℕ) : ℕ × ℕ × ℕ × ℕ :=
  let (a, b, c, d) := st
  let f :=
    if i < 16 then md5F b c d
    else if i < 32 then md5G b c d
    else if i < 48 then md5H b c d
    else md5I b c d
  let g :=
    if i < 16 then i
    else if i < 32 then (5 * i + 1) % 16
    else if i < 48 then (3 * i + 5) % 16
    else 7 * i % 16
  (d, w32 (b + rotl32 (w32 (a + f + md5K.getD i 0 + M g)) (md5S.getD i 0)), b, c)

/-- Processing of one 64-byte block: 64 rounds, then the feed-forward
addition of the incoming state. -/
def md5Block (st : ℕ × ℕ × ℕ × ℕ) (block : List ℕ) : ℕ × ℕ × ℕ × ℕ :=
  let (a0, b0, c0, d0) := st
  let (a, b, c, d) := (List.range 64).foldl (md5Round (leWord block)) st
  (w32 (a0 + a), w32 (b0 + b), w32 (c0 + c), w32 (d0 + d))

/-- MD5 padding: a `0x80` byte, zero bytes up to 56 mod 64, then the
original length in bits as 8 little-endian bytes. -/
def md5Pad (msg : List ℕ) : List ℕ :=
  msg ++ [128] ++ List.replicate ((119 - msg.length % 64) % 64) 0
    ++ leBytes 8 (8 * msg.length % 2 ^ 64)

/-- Splitting of a padded message (whose length `md5Pad` always makes an
exact multiple of 64) into its 64-byte blocks. -/
def chunks64 (l : List ℕ) : List (List ℕ) :=
  (List.range (l.length / 64)).map (fun i => (l.drop (64 * i)).take 64)

/-- The 16-byte MD5 digest of a byte string: the final state words
`A, B, C, D`, each rendered as four little-endian bytes. -/
def md5Digest (msg : List ℕ) : List ℕ :=
  let st :=
    (chunks64 (md5Pad msg)).foldl md5Block
      (1732584193, 4023233417, 2562383102, 271733878)
  leBytes 4 st.1 ++ leBytes 4 st.2.1 ++ leBytes 4 st.2.2.1 ++ leBytes 4 st.2.2.2

/-- Lower-case hex character for a value below 16. -/
def hexChar (n : ℕ) : Char :=
  if n < 10 then Char.ofNat (48 + n) else Char.ofNat (87 + n)

/-- Lower-case hex rendering of a byte string, as a character list. -/
def bytesToHex (bs : List ℕ) : List Char :=
  bs.foldr (fun b acc => hexChar (b / 16) :: hexChar (b % 16) :: acc) []

/-- `hashlib.md5(...).hexdigest()`: the 32-character lower-case hex form of
the digest. -/
def md5Hexdigest (msg : List ℕ) : String :=
  String.mk (bytesToHex (md5Digest msg))

/-- Value of a hex character (`int(c, 16)` for the characters `0`-`9`,
`a`-`f` that occur in a hex digest). -/
def hexCharVal (c : Char) : ℕ :=
  if 97 ≤ c.toNat then c.toNat - 87 else c.toNat - 48

/-- Python `int(s, 16)` on a list of hex characters. -/
def hexToNat (l : List Char) : ℕ :=
  l.foldl (fun acc c => 16 * acc + hexCharVal c) 0

/-- Byte string of an ASCII Python string, as produced by
`s.encode("ascii")` (all strings hashed by the platform are decimal digits
and `-`, hence ASCII). -/
def strBytes (s : String) : List ℕ := s.data.map Char.toNat

/-- `Platform.split_traffic` (a classmethod), translated line by line:
hash `str(id) + "-" + str(experiment_id)` with MD5, keep the first six hex
digits of the digest (`test_id_digest[:6]`, modelled as `List.take 6` on
the digest's character list), read them as an integer, normalise by
`0xFFFFFF`, and compare with `control_group_size`.  The ids are the
non-negative integers the docstring declares (`str` of an `int`). -/
def Platform.split_traffic (id experiment_id : ℕ)
    (control_group_size : ℚ) : String :=
  let test_id := Nat.repr id ++ "-" ++ Nat.repr experiment_id
  let test_id_digest := bytesToHex (md5Digest (strBytes test_id))
  let test_id_first_digits := test_id_digest.take 6
  let test_id_final_int := hexToNat test_id_first_digits
  let ab_split : ℚ := (test_id_final_int : ℚ) / 0xFFFFFF
  if ab_split > control_group_size then "t" else "c"

/-- Normalised hash fraction described by the spec for `split_traffic`:
the first 24 bits (six hex digits) of the MD5 hash of
`str(user_id) + "-" + str(experiment_id)`, read as an integer `h`, divided
by `0xFFFFFF`. -/
def splitFraction (user_id experiment_id : ℕ) : ℚ :=
  (hexToNat ((bytesToHex (md5Digest
    (strBytes (Nat.repr user_id ++ "-" ++ Nat.repr experiment_id)))).take 6) : ℚ)
    / 0xFFFFFF

/-- Rational stand-in for `scipy.stats.norm.ppf`, exact to five decimal
places at the two quantiles the claims evaluate it at
(`0.975 ↦ 1.959964`, `0.8 ↦ 0.8416212`). -/
def ppfTable (x : ℚ) : ℚ :=
  if x = 39 / 40 then 1959964 / 1000000
  else if x = 4 / 5 then 8416212 / 10000000
  else 0

/-- Rational stand-in for `np.sqrt`, exact to seven decimal places at the
two arguments the claims evaluate it at
(`0.32 ↦ 0.56568542`, `0.327056 ↦ 0.571888101`). -/
def sqrtTable (x : ℚ) : ℚ :=
  if x = 8 / 25 then 28284271 / 50000000
  else if x = 20441 / 62500 then 571888101 / 1000000000
  else 0

/-- Radicand that `calculate_sample_size` hands to `np.sqrt` when computing
`sd2`, with `delta = base_rate * pct_min_detectable_efect` substituted:
`base_rate*(1-base_rate) + (base_rate+delta)*(1-base_rate-delta)`.  For
large enough effects (`delta > 1 - base_rate`, e.g. `base_rate = 0.2`,
`pct = 10`) this is negative, where the real square root does not exist
and `np.sqrt` returns `nan`. -/
def sd2Arg (base_rate pct_min_detectable_efect : ℚ) : ℚ :=
  base_rate * (1 - base_rate)
    + (base_rate + base_rate * pct_min_detectable_efect)
      * (1 - base_rate - base_rate * pct_min_detectable_efect)

/-- Variant of `sqrtTable` that differs from it only at the single negative
argument `sd2Arg (1/5) 10 = -62/25` — a point outside the domain of the
real square root, where `np.sqrt` has no numeric value to return (it
yields `nan`).  Comparing runs over the two variants shows which results
of `calculate_sample_size` are determined by the square root's behaviour
at that negative point. -/
def sqrtTableNanMarker (x : ℚ) : ℚ :=
  if x = sd2Arg (1 / 5) 10 then 1 else sqrtTable x

/-- Metric source returning the concrete samples of the delta claim:
control observations `[1.0, 1.0]` and test observations `[0.5, 0.5]`. -/
def dbSamples : Database :=
  ⟨fun _ _ => .ok (.list [1, 1]), fun _ _ => .ok (.list [1 / 2, 1 / 2])⟩

/-- Metric source whose every call fails with `ExternalSourceError`, used to
observe whether an external call is actually reached. -/
def dbUnavailable : Database :=
  ⟨fun _ _ => .error (.externalSource "metric store unreachable"),
   fun _ _ => .error (.externalSource "metric store unreachable")⟩

/-- Platform constructed over `dbSamples`. -/
def platformSamples : Platform := ⟨[], dbSamples⟩

/-- Platform constructed over `dbUnavailable`. -/
def platformUnavailable : Platform := ⟨[], dbUnavailable⟩

/-- A fully populated `Experiment` with the given lifecycle status. -/
def sampleExperiment (status : String) : Experiment :=
  { experiment_id := 12
    name := "checkout button colour"
    description := "A per B test on the checkout button"
    metric := "conversion"
    control_metric := "conversion"
    traffic_percentage := 1
    control_group_size := 1 / 2
    baseline_converstion_rate := 1 / 5
    minimum_detectable_effect := 3 / 50
    status := status }

/-! ### Validation of the MD5 model on the RFC 1321 test vectors -/

set_option maxRecDepth 100000

/-- MD5 of the empty message, as in RFC 1321. -/
theorem md5_empty_vector :
    md5Hexdigest (strBytes "") = "d41d8cd98f00b204e9800998ecf8427e" := by
  decide

/-- MD5 of `abc`, as in RFC 1321. -/
theorem md5_abc_vector :
    md5Hexdigest (strBytes "abc") = "900150983cd24fb0d6963f7d28e17f72" := by
  decide

/-- Evaluation lemma: `are_buckets_balanced` is the strict double
inequality `0 < (observed - expected)^2 / expected < 1`, decided. -/
theorem are_buckets_balanced_eval (observed expected : ℚ) :
    Platform.are_buckets_balanced observed expected
      = .ok (decide (0 < (observed - expected) ^ 2 / expected
          ∧ (observed - expected) ^ 2 / expected < 1)) := by
  simp [Platform.are_buckets_balanced, chisquareStatistic]

/-! ### Claim theorems -/

/-- Claim C5: `split_traffic` is deterministic — any two invocations with
identical `(user_id, experiment_id, control_group_size)` return the same
label.  In the embedding `split_traffic` is a classmethod reading no
mutable state, so its result is a function of the three arguments alone. -/
theorem split_traffic_deterministic (u₁ u₂ e₁ e₂ : ℕ) (c₁ c₂ : ℚ)
    (hu : u₁ = u₂) (he : e₁ = e₂) (hc : c₁ = c₂) :
    Platform.split_traffic u₁ e₁ c₁ = Platform.split_traffic u₂ e₂ c₂ := by
  rw [hu, he, hc]

/-- Witness for C5 at the concrete call of the repository's test suite
(`user_id = 1765984`, `experiment_id = 12`, `control_group_size = 0.5`). -/
theorem split_traffic_deterministic_witness :
    Platform.split_traffic 1765984 12 (1 / 2)
      = Platform.split_traffic 1765984 12 (1 / 2) :=
  split_traffic_deterministic 1765984 1765984 12 12 (1 / 2) (1 / 2)
    rfl rfl rfl

/-- Claim C6: for `observed ≥ 0` and `expected > 0`, `are_buckets_balanced`
returns `true` iff `0 < (observed - expected)^2 / expected < 1` with both
bounds strict; in particular `(9, 10) ↦ true`, `(1, 10) ↦ false` and
`(10, 10) ↦ false` (an exact match is not balanced). -/
theorem are_buckets_balanced_iff (observed expected : ℚ)
    (hobs : 0 ≤ observed) (hexp : 0 < expected) :
    (Platform.are_buckets_balanced observed expected = .ok true ↔
      0 < (observed - expected) ^ 2 / expected
        ∧ (observed - expected) ^ 2 / expected < 1)
    ∧ Platform.are_buckets_balanced 9 10 = .ok true
    ∧ Platform.are_buckets_balanced 1 10 = .ok false
    ∧ Platform.are_buckets_balanced 10 10 = .ok false := by
  refine ⟨?_, ?_, ?_, ?_⟩ <;>
    simp only [are_buckets_balanced_eval, Except.ok.injEq,
      decide_eq_true_eq, decide_eq_false_iff_not, not_and, not_lt] <;>
    norm_num

/-- Witness for C6 at `observed = 9`, `expected = 10`. -/
theorem are_buckets_balanced_iff_witness :
    (Platform.are_buckets_balanced 9 10 = .ok true ↔
      0 < ((9 : ℚ) - 10) ^ 2 / 10 ∧ ((9 : ℚ) - 10) ^ 2 / 10 < 1)
    ∧ Platform.are_buckets_balanced 9 10 = .ok true
    ∧ Platform.are_buckets_balanced 1 10 = .ok false
    ∧ Platform.are_buckets_balanced 10 10 = .ok false :=
  are_buckets_balanced_iff 9 10 (by norm_num) (by norm_num)

/-- Counterexample to claim C7: `are_buckets_balanced(9, 0)` does not fail
with `InvalidParameter` — the source validates nothing, and the call
returns the value `false` (in the float code the statistic is `inf`, which
fails the strict `0 < s < 1` test; in the exact model the division by zero
gives `0`, which fails it as well). -/
theorem are_buckets_balanced_zero_expected_nine :
    Platform.are_buckets_balanced 9 0 = .ok false := by
  simp only [are_buckets_balanced_eval, Except.ok.injEq,
    decide_eq_false_iff_not, not_and, not_lt]
  norm_num

/-- Claim C7 as amended: for every `observed`, `are_buckets_balanced
(observed, 0)` returns `false` rather than failing with
`InvalidParameter`. -/
theorem are_buckets_balanced_zero_expected (observed : ℚ) :
    Platform.are_buckets_balanced observed 0 = .ok false := by
  simp only [are_buckets_balanced_eval, Except.ok.injEq,
    decide_eq_false_iff_not, not_and, not_lt]
  norm_num

/-- Counterexample to claim C2: at `alpha = 0.05`, `power = 0.8`,
`base_rate = 0.2` and `min_detectable_effect_pct = 0` (so `delta = 0`),
`calculate_sample_size` does not fail with `InvalidParameter`: the source
validates nothing and unconditionally returns the computed expression
(an `inf`/`nan` float where the exact model's division convention gives
`0`). -/
theorem calculate_sample_size_zero_mde_no_error :
    Platform.calculate_sample_size ppfTable sqrtTable (1 / 20) (4 / 5)
        (1 / 5) 0 ≠ .error .invalidParameter := by
  simp [Platform.calculate_sample_size]

/-- Claim C2 as amended: `calculate_sample_size` performs no domain
validation at all — for every choice of the external library functions and
every argument values, including `min_detectable_effect_pct = 0` and
arguments outside the documented domain, it returns an ordinary value and
never fails with `InvalidParameter`. -/
theorem calculate_sample_size_never_fails (ppf sqrt : ℚ → ℚ)
    (alpha power base_rate mde : ℚ) :
    ∃ v, Platform.calculate_sample_size ppf sqrt alpha power base_rate mde
      = .ok v :=
  ⟨_, rfl⟩

/-- Claim C1 (the code slip): even for a fully populated experiment with
status `DONE` over a metric source holding the samples `[1.0, 1.0]` and
`[0.5, 0.5]`, `calculate_significance` raises
`AttributeError` for `Experiment.id` — the dataclass field is
`experiment_id` — instead of returning a p-value; with status `NEW` it
raises the same error instead of returning the `-1` sentinel. -/
theorem calculate_significance_raises_concrete :
    Platform.calculate_significance (fun _ _ => 0) platformSamples
        (sampleExperiment "DONE")
      = .error (.attributeError "Experiment" "id")
    ∧ Platform.calculate_significance (fun _ _ => 0) platformSamples
        (sampleExperiment "NEW")
      = .error (.attributeError "Experiment" "id") :=
  ⟨rfl, rfl⟩

/-- Counterexample to claim C10's parenthetical "the external call happens
even when status is not `DONE`": on an experiment whose status is `NEW`,
the traced run shows that no database call is ever reached — evaluation of
the keyword argument `experiment.id` raises `AttributeError` first, so the
trace of reached database calls is empty (here over a metric source whose
every call would fail loudly with `ExternalSourceError`). -/
theorem calculate_significance_no_external_call :
    (sampleExperiment "NEW").status ≠ "DONE"
    ∧ (Platform.calculate_significanceTraced (fun _ _ => 0)
        platformUnavailable (sampleExperiment "NEW")).2 = [] :=
  ⟨by decide, rfl⟩

/-- Claim C10 as amended: the retrieval statement precedes the status check
in `calculate_significance`, but no external call ever completes — every
invocation, for every platform, metric source and experiment, fails with
`AttributeError` on `experiment.id` (the dataclass defines
`experiment_id`, not `id`) while evaluating the retrieval's arguments, so
the `MetricSource` is never invoked, `self.status` (which `Platform` never
defines) is never read, and neither a p-value nor the `-1` sentinel is
ever returned. -/
theorem calculate_significance_always_attribute_error
    (pvalue : PyVal → PyVal → ℚ) (p : Platform) (e : Experiment) :
    Platform.calculate_significanceTraced pvalue p e
      = (.error (.attributeError "Experiment" "id"), []) :=
  rfl

/-- Claim C8 (the code slip): on the exact samples of the claim — control
`[1.0, 1.0]`, test `[0.5, 0.5]` — `calculate_delta` does not return `0.5`:
it raises `AttributeError` for `Experiment.id` (the dataclass field is
`experiment_id`) while evaluating the arguments of the first retrieval,
before any sample is fetched. -/
theorem calculate_delta_raises_concrete :
    Platform.calculate_delta platformSamples (sampleExperiment "DONE")
      = .error (.attributeError "Experiment" "id") :=
  rfl

/-- Recurrence for the test-group count of the naive split: id `n` joins the
test group exactly when `n % 7 > 3`. -/
theorem naiveTestCount_succ (n : ℕ) :
    naiveTestCount (n + 1)
      = naiveTestCount n + (if 3 < n % 7 then 1 else 0) := by
  unfold naiveTestCount
  rw [List.range_succ, List.filter_append, List.length_append]
  congr 1
  by_cases h : 3 < n % 7
  · have h7 : ((7 : ℤ) / 2) = 3 := by norm_num
    have h' : ((n : ℤ) % 7) > 3 := by omega
    simp [Platform.split_traffic_naive, h7, h', h]
  · have h7 : ((7 : ℤ) / 2) = 3 := by norm_num
    have h' : ¬ ((n : ℤ) % 7) > 3 := by omega
    simp [Platform.split_traffic_naive, h7, h', h]

/-- Recurrence for the control-group count of the naive split. -/
theorem naiveControlCount_succ (n : ℕ) :
    naiveControlCount (n + 1)
      = naiveControlCount n + (if 3 < n % 7 then 0 else 1) := by
  unfold naiveControlCount
  rw [List.range_succ, List.filter_append, List.length_append]
  congr 1
  by_cases h : 3 < n % 7
  · have h7 : ((7 : ℤ) / 2) = 3 := by norm_num
    have h' : ((n : ℤ) % 7) > 3 := by omega
    simp [Platform.split_traffic_naive, h7, h', h]
  · have h7 : ((7 : ℤ) / 2) = 3 := by norm_num
    have h' : ¬ ((n : ℤ) % 7) > 3 := by omega
    simp [Platform.split_traffic_naive, h7, h', h]

/-- Closed form of the test-group count for sequential ids `0, ..., n-1`:
three of every full block of seven, plus the tail residues `4, 5, 6`. -/
theorem naiveTestCount_formula (n : ℕ) :
    naiveTestCount n = 3 * (n / 7) + (n % 7 - 4) := by
  induction n with
  | zero => rfl
  | succ n ih =>
    rw [naiveTestCount_succ, ih]
    by_cases h : 3 < n % 7 <;> simp only [h, if_true, if_false] <;> omega

/-- Every id lands in exactly one of the two groups. -/
theorem naive_counts_sum (n : ℕ) :
    naiveTestCount n + naiveControlCount n = n := by
  induction n with
  | zero => rfl
  | succ n ih =>
    rw [naiveTestCount_succ, naiveControlCount_succ]
    by_cases h : 3 < n % 7 <;> simp only [h, if_true, if_false] <;> omega

/-- Claim C9: `split_traffic_naive` returns `test` exactly when
`user_id mod prime_n > prime_n div 2` (for the positive moduli it is
called with), and with the default `prime_n = 7` the split of any
non-empty population of sequential user ids `0, ..., n-1` is never exactly
even. -/
theorem split_traffic_naive_spec :
    (∀ (user_id prime_n : ℤ), 0 < prime_n →
      Platform.split_traffic_naive user_id prime_n
        = splitNaiveSpec user_id prime_n)
    ∧ ∀ n : ℕ, 1 ≤ n → naiveTestCount n ≠ naiveControlCount n := by
  constructor
  · intro user_id prime_n _
    rfl
  · intro n hn heq
    have hsum := naive_counts_sum n
    have hf := naiveTestCount_formula n
    omega

/-- Witness for C9: the rule at `(user_id, prime_n) = (5, 7)` and the
imbalance over the 10000 sequential ids of the repository's test suite. -/
theorem split_traffic_naive_spec_witness :
    Platform.split_traffic_naive 5 7 = splitNaiveSpec 5 7
    ∧ naiveTestCount 10000 ≠ naiveControlCount 10000 :=
  ⟨split_traffic_naive_spec.1 5 7 (by norm_num),
   split_traffic_naive_spec.2 10000 (by norm_num)⟩

/-- Claim C3 as amended: `calculate_sample_size` returns exactly the
closed form `((z_alpha2*sd1 + z_beta*sd2)^2) / delta^2` of the spec, for
every input whatsoever.  The value is positive whenever `base_rate ∈
(0,1)`, `min_detectable_effect_pct > 0` and the external library functions
behave as genuine values there: `ppf (1 - alpha/2) > 0` (true of the real
inverse normal CDF for every `alpha ∈ (0,1)`), `ppf power ≥ 0` (true
exactly for `power ≥ 1/2`, in particular at the claimed `power = 0.8`;
for `power < 1/2` the real quantile is negative and positivity can fail),
and `sqrt` positive on `2*base_rate*(1-base_rate)` and non-negative on the
`sd2` radicand — which requires that radicand to be non-negative in the
first place: for large effects it is negative and `np.sqrt` returns `nan`
(see the counterexample).  At `alpha = 0.05`, `power = 0.8`,
`base_rate = 0.2`, `min_detectable_effect_pct = 0.06`, whenever the
library's values are within `10⁻⁵` of `z_alpha2 = 1.959964`,
`z_beta = 0.8416212` and within `10⁻⁷` of `sqrt 0.32 = 0.56568542`,
`sqrt 0.327056 = 0.571888101` (scipy's and numpy's are), the result rounds
to `17557`. -/
theorem calculate_sample_size_formula (ppf sqrt : ℚ → ℚ)
    (alpha power base_rate mde : ℚ) :
    Platform.calculate_sample_size ppf sqrt alpha power base_rate mde
      = .ok (sampleSizeSpec ppf sqrt alpha power base_rate mde)
    ∧ (0 < base_rate → base_rate < 1 → 0 < mde →
       0 < ppf (1 - alpha / 2) → 0 ≤ ppf power →
       0 < sqrt (2 * base_rate * (1 - base_rate)) →
       0 ≤ sqrt (base_rate * (1 - base_rate)
         + (base_rate + base_rate * mde) * (1 - base_rate - base_rate * mde)) →
       0 < sampleSizeSpec ppf sqrt alpha power base_rate mde)
    ∧ (alpha = 1 / 20 → power = 4 / 5 → base_rate = 1 / 5 → mde = 3 / 50 →
       |ppf (39 / 40) - 1959964 / 1000000| ≤ 1 / 100000 →
       |ppf (4 / 5) - 8416212 / 10000000| ≤ 1 / 100000 →
       |sqrt (8 / 25) - 28284271 / 50000000| ≤ 1 / 10000000 →
       |sqrt (20441 / 62500) - 571888101 / 1000000000| ≤ 1 / 10000000 →
       round (sampleSizeSpec ppf sqrt alpha power base_rate mde) = 17557) := by
  refine ⟨?_, ?_, ?_⟩
  · simp only [Platform.calculate_sample_size, sampleSizeSpec]
    congr 1
    ring
  · intro hb0 hb1 hm hz1 hz2 hs1 hs2
    have hnum : 0 < ppf (1 - alpha / 2) * sqrt (2 * base_rate * (1 - base_rate))
        + ppf power * sqrt (base_rate * (1 - base_rate)
          + (base_rate + base_rate * mde) * (1 - base_rate - base_rate * mde)) :=
      add_pos_of_pos_of_nonneg (mul_pos hz1 hs1) (mul_nonneg hz2 hs2)
    have hd : 0 < base_rate * mde := mul_pos hb0 hm
    simp only [sampleSizeSpec]
    exact div_pos (pow_pos hnum 2) (pow_pos hd 2)
  · rintro rfl rfl rfl rfl hz1b hz2b hs1b hs2b
    have e1 : (1 : ℚ) - 1 / 20 / 2 = 39 / 40 := by norm_num
    have e2 : 2 * (1 / 5 : ℚ) * (1 - 1 / 5) = 8 / 25 := by norm_num
    have e3 : (1 / 5 : ℚ) * (1 - 1 / 5)
        + (1 / 5 + 1 / 5 * (3 / 50)) * (1 - 1 / 5 - 1 / 5 * (3 / 50))
        = 20441 / 62500 := by norm_num
    have e4 : ((1 / 5 : ℚ) * (3 / 50)) ^ 2 = 9 / 62500 := by norm_num
    simp only [sampleSizeSpec]
    rw [e1, e2, e3, e4]
    rw [abs_le] at hz1b hz2b hs1b hs2b
    set z1 := ppf (39 / 40) with hz1def
    set z2 := ppf (4 / 5) with hz2def
    set s1 := sqrt (8 / 25) with hs1def
    set s2 := sqrt (20441 / 62500) with hs2def
    have hz1lo : (1959954 / 1000000 : ℚ) ≤ z1 := by linarith [hz1b.1]
    have hz1hi : z1 ≤ (1959974 / 1000000 : ℚ) := by linarith [hz1b.2]
    have hz2lo : (8416112 / 10000000 : ℚ) ≤ z2 := by linarith [hz2b.1]
    have hz2hi : z2 ≤ (8416312 / 10000000 : ℚ) := by linarith [hz2b.2]
    have hs1lo : (28284266 / 50000000 : ℚ) ≤ s1 := by linarith [hs1b.1]
    have hs1hi : s1 ≤ (28284276 / 50000000 : ℚ) := by linarith [hs1b.2]
    have hs2lo : (571888001 / 1000000000 : ℚ) ≤ s2 := by linarith [hs2b.1]
    have hs2hi : s2 ≤ (571888201 / 1000000000 : ℚ) := by linarith [hs2b.2]
    have hz1pos : (0 : ℚ) ≤ z1 := by linarith
    have hz2pos : (0 : ℚ) ≤ z2 := by linarith
    have hs1pos : (0 : ℚ) ≤ s1 := by linarith
    have hs2pos : (0 : ℚ) ≤ s2 := by linarith
    have hp1lo : (1959954 / 1000000 : ℚ) * (28284266 / 50000000) ≤ z1 * s1 :=
      mul_le_mul hz1lo hs1lo (by norm_num) hz1pos
    have hp1hi : z1 * s1 ≤ (1959974 / 1000000 : ℚ) * (28284276 / 50000000) :=
      mul_le_mul hz1hi hs1hi hs1pos (by norm_num)
    have hp2lo : (8416112 / 10000000 : ℚ) * (571888001 / 1000000000)
        ≤ z2 * s2 :=
      mul_le_mul hz2lo hs2lo (by norm_num) hz2pos
    have hp2hi : z2 * s2
        ≤ (8416312 / 10000000 : ℚ) * (571888201 / 1000000000) :=
      mul_le_mul hz2hi hs2hi hs2pos (by norm_num)
    set NL : ℚ := 1959954 / 1000000 * (28284266 / 50000000)
      + 8416112 / 10000000 * (571888001 / 1000000000) with hNLdef
    set NH : ℚ := 1959974 / 1000000 * (28284276 / 50000000)
      + 8416312 / 10000000 * (571888201 / 1000000000) with hNHdef
    have hNlo : NL ≤ z1 * s1 + z2 * s2 := by rw [hNLdef]; linarith
    have hNhi : z1 * s1 + z2 * s2 ≤ NH := by rw [hNHdef]; linarith
    have hNLpos : (0 : ℚ) ≤ NL := by rw [hNLdef]; norm_num
    have hNpos : (0 : ℚ) ≤ z1 * s1 + z2 * s2 := le_trans hNLpos hNlo
    have hN2lo : NL ^ 2 ≤ (z1 * s1 + z2 * s2) ^ 2 :=
      pow_le_pow_left₀ hNLpos hNlo 2
    have hN2hi : (z1 * s1 + z2 * s2) ^ 2 ≤ NH ^ 2 :=
      pow_le_pow_left₀ hNpos hNhi 2
    have h9 : (0 : ℚ) < 9 / 62500 := by norm_num
    have hqlo : NL ^ 2 / (9 / 62500)
        ≤ (z1 * s1 + z2 * s2) ^ 2 / (9 / 62500) :=
      (div_le_div_iff_of_pos_right h9).mpr hN2lo
    have hqhi : (z1 * s1 + z2 * s2) ^ 2 / (9 / 62500) ≤ NH ^ 2 / (9 / 62500) :=
      (div_le_div_iff_of_pos_right h9).mpr hN2hi
    have hc1 : (35113 / 2 : ℚ) ≤ NL ^ 2 / (9 / 62500) := by
      rw [hNLdef]; norm_num
    have hc2 : NH ^ 2 / (9 / 62500) < (35115 / 2 : ℚ) := by
      rw [hNHdef]; norm_num
    rw [round_eq, Int.floor_eq_iff]
    push_cast
    constructor
    · linarith
    · linarith

/-- Witness for C3 at the claimed concrete input, with rational stand-ins
for the library functions that match scipy's values to the stated
accuracy. -/
theorem calculate_sample_size_formula_witness :
    Platform.calculate_sample_size ppfTable sqrtTable (1 / 20) (4 / 5)
        (1 / 5) (3 / 50)
      = .ok (sampleSizeSpec ppfTable sqrtTable (1 / 20) (4 / 5) (1 / 5) (3 / 50))
    ∧ 0 < sampleSizeSpec ppfTable sqrtTable (1 / 20) (4 / 5) (1 / 5) (3 / 50)
    ∧ round (sampleSizeSpec ppfTable sqrtTable (1 / 20) (4 / 5) (1 / 5) (3 / 50))
        = 17557 := by
  obtain ⟨h1, h2, h3⟩ :=
    calculate_sample_size_formula ppfTable sqrtTable (1 / 20) (4 / 5) (1 / 5)
      (3 / 50)
  refine ⟨h1, ?_, ?_⟩
  · exact h2 (by norm_num) (by norm_num) (by norm_num)
      (by norm_num [ppfTable]) (by norm_num [ppfTable])
      (by norm_num [sqrtTable]) (by norm_num [sqrtTable])
  · exact h3 rfl rfl rfl rfl (by norm_num [ppfTable])
      (by norm_num [ppfTable]) (by norm_num [sqrtTable]) (by norm_num [sqrtTable])

/-- Counterexample to claim C3's "finite and positive" conclusion: at
`alpha = 0.05`, `power = 0.8`, `base_rate = 0.2` and
`min_detectable_effect_pct = 10` — all inside the claim's stated domain —
the radicand handed to `np.sqrt` for `sd2` is `-62/25 = -2.48 < 0`, so
`np.sqrt` returns `nan` and the float program returns `nan`, which is
neither finite nor positive.  Formally: the radicand is negative, and the
program's result is determined by the square root's behaviour at that
negative point — two square-root models that differ only there (the real
square root has no value on negatives) yield different results. -/
theorem calculate_sample_size_sqrt_of_negative :
    sd2Arg (1 / 5) 10 = -62 / 25
    ∧ Platform.calculate_sample_size ppfTable sqrtTable (1 / 20) (4 / 5)
        (1 / 5) 10
      ≠ Platform.calculate_sample_size ppfTable sqrtTableNanMarker (1 / 20)
        (4 / 5) (1 / 5) 10 := by
  constructor
  · norm_num [sd2Arg]
  · simp only [Platform.calculate_sample_size, ppfTable, sqrtTable,
      sqrtTableNanMarker, sd2Arg]
    norm_num

/-- Unfolding of the hex rendering on a cons cell. -/
theorem bytesToHex_cons (b : ℕ) (bs : List ℕ) :
    bytesToHex (b :: bs)
      = hexChar (b / 16) :: hexChar (b % 16) :: bytesToHex bs :=
  rfl

/-- Hex characters decode to their value (checked for all 16 digits). -/
theorem hexCharVal_hexChar : ∀ n < 16, hexCharVal (hexChar n) = n := by
  decide

/-- Every character of the hex rendering of a byte string has a hex value
below 16. -/
theorem hexCharVal_lt_of_mem_bytesToHex (bs : List ℕ)
    (hbs : ∀ b ∈ bs, b < 256) :
    ∀ c ∈ bytesToHex bs, hexCharVal c < 16 := by
  induction bs with
  | nil => intro c hc; simp [bytesToHex] at hc
  | cons b bs ih =>
    intro c hc
    have hb : b < 256 := hbs b (by simp)
    rw [bytesToHex_cons] at hc
    simp only [List.mem_cons] at hc
    rcases hc with rfl | rfl | hc
    · have h1 : hexCharVal (hexChar (b / 16)) = b / 16 :=
        hexCharVal_hexChar _ (by omega)
      omega
    · have h1 : hexCharVal (hexChar (b % 16)) = b % 16 :=
        hexCharVal_hexChar _ (by omega)
      omega
    · exact ih (fun x hx => hbs x (by simp [hx])) c hc

/-- Little-endian byte decompositions consist of bytes. -/
theorem leBytes_lt (k x : ℕ) : ∀ b ∈ leBytes k x, b < 256 := by
  intro b hb
  simp only [leBytes, List.mem_map] at hb
  obtain ⟨i, _, rfl⟩ := hb
  exact Nat.mod_lt _ (by norm_num)

/-- The MD5 digest consists of bytes. -/
theorem md5Digest_lt (msg : List ℕ) : ∀ b ∈ md5Digest msg, b < 256 := by
  intro b hb
  simp only [md5Digest, List.mem_append] at hb
  rcases hb with ((hb | hb) | hb) | hb <;> exact leBytes_lt _ _ b hb

/-- Bound on the hex reading of a character list, generalised over the
accumulator of the fold. -/
theorem hexToNat_foldl_lt (l : List Char)
    (h : ∀ c ∈ l, hexCharVal c < 16) (acc : ℕ) :
    l.foldl (fun a c => 16 * a + hexCharVal c) acc
      < (acc + 1) * 16 ^ l.length := by
  induction l generalizing acc with
  | nil => simp
  | cons c cs ih =>
    simp only [List.foldl_cons, List.length_cons]
    have hc : hexCharVal c < 16 := h c (by simp)
    have step := ih (fun x hx => h x (by simp [hx])) (16 * acc + hexCharVal c)
    have hle : (16 * acc + hexCharVal c + 1) * 16 ^ cs.length
        ≤ (acc + 1) * 16 ^ (cs.length + 1) := by
      have h16 : 16 * acc + hexCharVal c + 1 ≤ 16 * (acc + 1) := by omega
      calc (16 * acc + hexCharVal c + 1) * 16 ^ cs.length
          ≤ 16 * (acc + 1) * 16 ^ cs.length :=
            Nat.mul_le_mul_right _ h16
        _ = (acc + 1) * 16 ^ (cs.length + 1) := by ring
    exact lt_of_lt_of_le step hle

/-- A string of at most six hex characters reads as an integer below
`16^6 = 0xFFFFFF + 1`. -/
theorem hexToNat_take6_le (l : List Char) (h : ∀ c ∈ l, hexCharVal c < 16) :
    hexToNat (l.take 6) ≤ 16777215 := by
  have hsub : ∀ c ∈ l.take 6, hexCharVal c < 16 :=
    fun c hc => h c (List.take_subset 6 l hc)
  have hlt := hexToNat_foldl_lt (l.take 6) hsub 0
  have hlen : (l.take 6).length ≤ 6 := by
    simp [List.length_take]
  have hpow : 16 ^ (l.take 6).length ≤ 16 ^ 6 :=
    Nat.pow_le_pow_right (by norm_num) hlen
  have : hexToNat (l.take 6) < 16 ^ 6 := by
    have := lt_of_lt_of_le hlt (by simpa using hpow)
    simpa [hexToNat] using this
  omega

/-- Counterexample to claim C4's assertion that the normalised fraction
lies in `[0, 1)`: the MD5 digest of `"29095514-0"` is
`ffffffb2e851ba5254fa18a0ceeb16b6`, so for `user_id = 29095514` and
`experiment_id = 0` the first 24 bits are `0xFFFFFF` and the fraction is
exactly `1`. -/
theorem split_fraction_reaches_one : ¬ splitFraction 29095514 0 < 1 := by
  have hh : hexToNat ((bytesToHex (md5Digest
      (strBytes (Nat.repr 29095514 ++ "-" ++ Nat.repr 0)))).take 6)
      = 16777215 := by decide
  simp only [splitFraction, hh]
  norm_num

/-- Claim C4 as amended (`[0, 1)` becomes `[0, 1]`): `split_traffic` always
returns a label in `{t, c}`, that label is `t` exactly when the normalised
first-24-bits MD5 fraction of `str(user_id) + "-" + str(experiment_id)`
exceeds `control_group_size`, and the fraction lies in `[0, 1]` (the upper
bound `1` is attained by the digest prefix `ffffff`). -/
theorem split_traffic_algorithm (user_id experiment_id : ℕ)
    (control_group_size : ℚ) :
    (Platform.split_traffic user_id experiment_id control_group_size = "t"
      ∨ Platform.split_traffic user_id experiment_id control_group_size = "c")
    ∧ Platform.split_traffic user_id experiment_id control_group_size
        = (if splitFraction user_id experiment_id > control_group_size
            then "t" else "c")
    ∧ 0 ≤ splitFraction user_id experiment_id
    ∧ splitFraction user_id experiment_id ≤ 1 := by
  have heq : Platform.split_traffic user_id experiment_id control_group_size
      = (if splitFraction user_id experiment_id > control_group_size
          then "t" else "c") := rfl
  have hchars : ∀ c ∈ bytesToHex (md5Digest
      (strBytes (Nat.repr user_id ++ "-" ++ Nat.repr experiment_id))),
      hexCharVal c < 16 :=
    hexCharVal_lt_of_mem_bytesToHex _ (md5Digest_lt _)
  have hle : hexToNat ((bytesToHex (md5Digest
      (strBytes (Nat.repr user_id ++ "-" ++ Nat.repr experiment_id)))).take 6)
      ≤ 16777215 := hexToNat_take6_le _ hchars
  refine ⟨?_, heq, ?_, ?_⟩
  · rw [heq]
    by_cases h : splitFraction user_id experiment_id > control_group_size
    · exact Or.inl (if_pos h)
    · exact Or.inr (if_neg h)
  · exact div_nonneg (Nat.cast_nonneg _) (by norm_num)
  · rw [splitFraction, div_le_one (by norm_num)]
    exact_mod_cast hle
